import Mathlib

/-!
# moneta: a validating pass-through over an S3-like client

Shallow embedding of `src/moneta.go`.

* A Go interface value that may be nil is an `Option`; `none` is nil.
* A Go `error` is `Option GoError`; `none` is the nil error.
* The client behind the `S3API` interface is an arbitrary state machine: each
  method takes the client state and returns its results with the next state.
* Every method invocation that goes through the `S3API` interface is appended to
  a call log kept next to the client state (`World`), so that the number, order
  and arguments of the calls an operation makes can be stated.
* Invoking a method on a nil interface value panics in Go; operations therefore
  return an `Outcome`, which is either a normal return or a panic.
-/

namespace Moneta

/-! ## External types the package passes through -/

/-- Value of the Go interface `context.Context`. The package never inspects it;
it is an opaque handle forwarded to the client. -/
structure Context where
  id : Nat
  deriving DecidableEq

/-- Non-nil value of the Go interface `io.Reader`. The package never reads from
it; `data` stands for the bytes the reader would yield. -/
structure Reader where
  data : String
  deriving DecidableEq

/-- Non-nil value of the Go interface `error`. `errorString` is the value that
`errors.New` builds; `custom` is any other implementation. Two values are equal
when they carry the same content (allocation identity is not modelled). -/
inductive GoError where
  | errorString (s : String)
  | custom (code : Nat) (text : String)
  deriving DecidableEq

/-- The `Error()` method of a Go error. -/
def GoError.Error : GoError → String
  | .errorString s => s
  | .custom _ text => text

/-- Go `errors.New`. -/
def errors.New (text : String) : GoError := GoError.errorString text

/-- Go `map[string]string`: `none` is the nil map, `some entries` a non-nil map
(`some []` is the empty map literal). -/
abbrev StringMap := Option (List (String × String))

/-- A value of type `func(*middleware.Stack) error`; opaque to the package. -/
structure APIOption where
  id : Nat
  deriving DecidableEq

/-- A value of type `func(*s3.Options)`. The only one the package builds is the
result of `s3.WithAPIOptions`. -/
inductive s3.OptFn where
  | WithAPIOptions (optFns : List APIOption)
  deriving DecidableEq

/-- Go `aws.String`: a pointer to the given string. -/
def aws.String (v : String) : Option String := some v

/-- The fields of `s3.HeadBucketInput` the package sets; every other field keeps
its zero value. -/
structure s3.HeadBucketInput where
  Bucket : Option String
  deriving DecidableEq

/-- The fields of `s3.PutObjectInput` the package sets; every other field keeps
its zero value. -/
structure s3.PutObjectInput where
  Bucket : Option String
  Key : Option String
  Body : Option Reader
  Metadata : StringMap
  deriving DecidableEq

/-- Result struct of `HeadBucket`; the package discards it. -/
structure s3.HeadBucketOutput where
  tag : Nat
  deriving DecidableEq

/-- Result struct of `PutObject`; the package discards it. -/
structure s3.PutObjectOutput where
  tag : Nat
  deriving DecidableEq

/-! ## The S3API interface and the observable world -/

/-- An implementation of the Go interface `S3API` with internal state `σ`.
Each method returns `(output pointer, error)` and the next state. The `params`
pointer is represented by its pointee (the package always passes the address of
a fresh literal). -/
structure S3API (σ : Type) where
  HeadBucket : Context → s3.HeadBucketInput → List s3.OptFn → σ →
    (Option s3.HeadBucketOutput × Option GoError) × σ
  PutObject : Context → s3.PutObjectInput → List s3.OptFn → σ →
    (Option s3.PutObjectOutput × Option GoError) × σ

/-- One method invocation made through the `S3API` interface, with its arguments. -/
inductive Call where
  | HeadBucket (ctx : Context) (params : s3.HeadBucketInput) (optFns : List s3.OptFn)
  | PutObject (ctx : Context) (params : s3.PutObjectInput) (optFns : List s3.OptFn)
  deriving DecidableEq

/-- The client state together with the log of calls made on the client so far
(oldest first). -/
structure World (σ : Type) where
  state : σ
  calls : List Call

/-- Is this call a `PutObject` invocation. -/
def Call.isPutObject : Call → Bool
  | .PutObject _ _ _ => true
  | .HeadBucket _ _ _ => false

/-- Is this call a `HeadBucket` invocation. -/
def Call.isHeadBucket : Call → Bool
  | .HeadBucket _ _ _ => true
  | .PutObject _ _ _ => false

/-- Number of `PutObject` invocations recorded in the world. -/
def World.putObjectCount {σ : Type} (w : World σ) : Nat :=
  w.calls.countP Call.isPutObject

/-- Number of `HeadBucket` invocations recorded in the world. -/
def World.headBucketCount {σ : Type} (w : World σ) : Nat :=
  w.calls.countP Call.isHeadBucket

/-- Dispatch of `client.HeadBucket(ctx, params, optFns...)` on a non-nil client:
runs the method on the current state and records the call. -/
def S3API.invokeHeadBucket {σ : Type} (c : S3API σ) (ctx : Context)
    (params : s3.HeadBucketInput) (optFns : List s3.OptFn) (w : World σ) :
    (Option s3.HeadBucketOutput × Option GoError) × World σ :=
  let r := c.HeadBucket ctx params optFns w.state
  (r.1, { state := r.2, calls := w.calls ++ [Call.HeadBucket ctx params optFns] })

/-- Dispatch of `client.PutObject(ctx, params, optFns...)` on a non-nil client:
runs the method on the current state and records the call. -/
def S3API.invokePutObject {σ : Type} (c : S3API σ) (ctx : Context)
    (params : s3.PutObjectInput) (optFns : List s3.OptFn) (w : World σ) :
    (Option s3.PutObjectOutput × Option GoError) × World σ :=
  let r := c.PutObject ctx params optFns w.state
  (r.1, { state := r.2, calls := w.calls ++ [Call.PutObject ctx params optFns] })

/-- How a Go call ends: it returns a value, or it panics (here only by a method
call on a nil interface value). -/
inductive Outcome (α : Type) where
  | returned (a : α)
  | panicked
  deriving DecidableEq

/-! ## The Store -/

/-- Go `type Store struct`. `client` is an interface value and may be nil;
`apiOpts` is the variadic slice given to `New`. -/
structure Store (σ : Type) where
  client : Option (S3API σ)
  bucket : String
  apiOpts : List APIOption

/-- Go `New`: returns `(*Store, error)`. It touches neither the client nor the
log, so the world comes back as it was. -/
def New {σ : Type} (client : Option (S3API σ)) (bucket : String)
    (apiOpts : List APIOption) (w : World σ) :
    (Option (Store σ) × Option GoError) × World σ :=
  if bucket = "" then
    ((none, some (errors.New "bucket name cannot be empty")), w)
  else
    ((some { client := client, bucket := bucket, apiOpts := apiOpts }, none), w)

/-- Go `(*Store).Ping` on a non-nil receiver. -/
def Store.Ping {σ : Type} (s : Store σ) (ctx : Context) (w : World σ) :
    Outcome (Option GoError) × World σ :=
  match s.client with
  | none => (Outcome.panicked, w)
  | some c =>
    let r := c.invokeHeadBucket ctx { Bucket := aws.String s.bucket } [] w
    (Outcome.returned r.1.2, r.2)

/-- Go `(*Store).UploadImageWithMetadata` on a non-nil receiver. -/
def Store.UploadImageWithMetadata {σ : Type} (s : Store σ) (ctx : Context)
    (key : String) (body : Option Reader) (metadata : StringMap) (w : World σ) :
    Outcome (Option GoError) × World σ :=
  if key = "" then
    (Outcome.returned (some (errors.New "key cannot be empty")), w)
  else if body = none then
    (Outcome.returned (some (errors.New "body cannot be nil")), w)
  else
    match s.client with
    | none => (Outcome.panicked, w)
    | some c =>
      let r := c.invokePutObject ctx
        { Bucket := aws.String s.bucket
          Key := aws.String key
          Body := body
          Metadata := metadata }
        [s3.OptFn.WithAPIOptions s.apiOpts] w
      (Outcome.returned r.1.2, r.2)

/-- Go `(*Store).UploadImage` on a non-nil receiver: passes the empty map
literal `map[string]string{}` as metadata. -/
def Store.UploadImage {σ : Type} (s : Store σ) (ctx : Context) (key : String)
    (body : Option Reader) (w : World σ) : Outcome (Option GoError) × World σ :=
  s.UploadImageWithMetadata ctx key body (some []) w

/-! ## A concrete client and fixtures, after the test suite -/

/-- A client in the manner of the test double: `HeadBucket` always returns
`headErr`, `PutObject` always returns `putErr`, both with a nil output; the
state counts the calls served. -/
def fixedClient (headErr putErr : Option GoError) : S3API Nat where
  HeadBucket := fun _ _ _ n => ((none, headErr), n + 1)
  PutObject := fun _ _ _ n => ((none, putErr), n + 1)

/-- The error `assert.AnError` that the tests inject. -/
def AnError : GoError :=
  errors.New "assert.AnError general error for testing"

/-- The context `context.Background()` of the tests. -/
def background : Context := { id := 0 }

/-- The reader `bytes.NewBufferString("my_body")` of the tests. -/
def myBody : Reader := { data := "my_body" }

/-- A world in which nothing has been called yet. -/
def freshWorld : World Nat := { state := 0, calls := [] }

/-- The store of the test suite: bucket `test_bucket`, no options. -/
def testStore (headErr putErr : Option GoError) : Store Nat :=
  { client := some (fixedClient headErr putErr), bucket := "test_bucket", apiOpts := [] }

/-! ## Helper lemmas -/

/-- A store that `New` returned without an error was built from a non-empty
bucket name and holds exactly the arguments of `New`. -/
theorem New_returns_store {σ : Type} (client : Option (S3API σ)) (bucket : String)
    (apiOpts : List APIOption) (w0 : World σ) (s : Store σ)
    (hNew : (New client bucket apiOpts w0).1 = (some s, none)) :
    bucket ≠ "" ∧ s = { client := client, bucket := bucket, apiOpts := apiOpts } := by
  unfold New at hNew
  by_cases hb : bucket = ""
  · simp [hb] at hNew
  · simp only [hb, if_false, Prod.mk.injEq, Option.some.injEq, and_true] at hNew
    exact ⟨hb, hNew.symm⟩

/-- Appending one `PutObject` call raises the `PutObject` count by one. -/
theorem countP_isPutObject_append_put (l : List Call) (ctx : Context)
    (params : s3.PutObjectInput) (optFns : List s3.OptFn) :
    (l ++ [Call.PutObject ctx params optFns]).countP Call.isPutObject
      = l.countP Call.isPutObject + 1 := by
  simp [List.countP_append, Call.isPutObject]

/-- Appending one `PutObject` call leaves the `HeadBucket` count as it was. -/
theorem countP_isHeadBucket_append_put (l : List Call) (ctx : Context)
    (params : s3.PutObjectInput) (optFns : List s3.OptFn) :
    (l ++ [Call.PutObject ctx params optFns]).countP Call.isHeadBucket
      = l.countP Call.isHeadBucket := by
  simp [List.countP_append, Call.isHeadBucket]

/-- With a non-empty key, a non-nil body and a non-nil client, the upload is one
recorded `PutObject` dispatch whose error is returned. -/
theorem UploadImageWithMetadata_forwards {σ : Type} (c : S3API σ) (bucket : String)
    (apiOpts : List APIOption) (ctx : Context) (key : String) (hkey : key ≠ "")
    (body : Reader) (metadata : StringMap) (w : World σ) :
    Store.UploadImageWithMetadata
        { client := some c, bucket := bucket, apiOpts := apiOpts }
        ctx key (some body) metadata w
      = (Outcome.returned
          (c.PutObject ctx
            { Bucket := some bucket, Key := some key, Body := some body,
              Metadata := metadata }
            [s3.OptFn.WithAPIOptions apiOpts] w.state).1.2,
         { state := (c.PutObject ctx
            { Bucket := some bucket, Key := some key, Body := some body,
              Metadata := metadata }
            [s3.OptFn.WithAPIOptions apiOpts] w.state).2,
           calls := w.calls ++ [Call.PutObject ctx
            { Bucket := some bucket, Key := some key, Body := some body,
              Metadata := metadata }
            [s3.OptFn.WithAPIOptions apiOpts]] }) := by
  simp [Store.UploadImageWithMetadata, S3API.invokePutObject, aws.String, hkey]

/-- A store whose client is the nil interface value panics in `Ping`, without
any recorded call. -/
theorem Ping_nil_client_panics {σ : Type} (bucket : String) (apiOpts : List APIOption)
    (ctx : Context) (w : World σ) :
    Store.Ping { client := none, bucket := bucket, apiOpts := apiOpts } ctx w
      = (Outcome.panicked, w) := by
  simp [Store.Ping]

/-! ## Claims -/

/-- C1: for every client (nil included), every body (nil or not) and every store
that `New` returned, `UploadImage` with the empty key returns a non-nil error and
leaves the world as it was: no `PutObject` and no `HeadBucket` call is made. -/
theorem UploadImage_empty_key_fails_without_call {σ : Type}
    (client : Option (S3API σ)) (bucket : String) (apiOpts : List APIOption)
    (w0 : World σ) (s : Store σ)
    (hNew : (New client bucket apiOpts w0).1 = (some s, none))
    (ctx : Context) (body : Option Reader) (w : World σ) :
    (∃ e : GoError, (s.UploadImage ctx "" body w).1 = Outcome.returned (some e))
      ∧ (s.UploadImage ctx "" body w).2 = w
      ∧ (s.UploadImage ctx "" body w).2.putObjectCount = w.putObjectCount
      ∧ (s.UploadImage ctx "" body w).2.headBucketCount = w.headBucketCount := by
  have _ := hNew
  refine ⟨⟨errors.New "key cannot be empty", ?_⟩, ?_, ?_, ?_⟩ <;>
    simp [Store.UploadImage, Store.UploadImageWithMetadata]

/-- Instance of C1 at the test suite's store, first with the body `my_body`. -/
theorem UploadImage_empty_key_fails_without_call_witness :
    (New (some (fixedClient none none)) "test_bucket" [] freshWorld).1
        = (some (testStore none none), none)
      ∧ ((∃ e : GoError, ((testStore none none).UploadImage background "" (some myBody)
            freshWorld).1 = Outcome.returned (some e))
        ∧ ((testStore none none).UploadImage background "" (some myBody) freshWorld).2
            = freshWorld
        ∧ ((testStore none none).UploadImage background "" (some myBody)
            freshWorld).2.putObjectCount = freshWorld.putObjectCount
        ∧ ((testStore none none).UploadImage background "" (some myBody)
            freshWorld).2.headBucketCount = freshWorld.headBucketCount) :=
  ⟨rfl, UploadImage_empty_key_fails_without_call (some (fixedClient none none))
    "test_bucket" [] freshWorld (testStore none none) rfl background (some myBody)
    freshWorld⟩

/-- C2: for every client (nil included), every key (empty or not) and every store
that `New` returned, `UploadImage` with a nil body returns a non-nil error and
leaves the world as it was: no `PutObject` call is made. -/
theorem UploadImage_nil_body_fails_without_call {σ : Type}
    (client : Option (S3API σ)) (bucket : String) (apiOpts : List APIOption)
    (w0 : World σ) (s : Store σ)
    (hNew : (New client bucket apiOpts w0).1 = (some s, none))
    (ctx : Context) (key : String) (w : World σ) :
    (∃ e : GoError, (s.UploadImage ctx key none w).1 = Outcome.returned (some e))
      ∧ (s.UploadImage ctx key none w).2 = w
      ∧ (s.UploadImage ctx key none w).2.putObjectCount = w.putObjectCount := by
  have _ := hNew
  by_cases hk : key = ""
  · refine ⟨⟨errors.New "key cannot be empty", ?_⟩, ?_, ?_⟩ <;>
      simp [Store.UploadImage, Store.UploadImageWithMetadata, hk]
  · refine ⟨⟨errors.New "body cannot be nil", ?_⟩, ?_, ?_⟩ <;>
      simp [Store.UploadImage, Store.UploadImageWithMetadata, hk]

/-- Instance of C2 at the test suite's store and the key `key_1`. -/
theorem UploadImage_nil_body_fails_without_call_witness :
    (New (some (fixedClient none none)) "test_bucket" [] freshWorld).1
        = (some (testStore none none), none)
      ∧ ((∃ e : GoError, ((testStore none none).UploadImage background "key_1" none
            freshWorld).1 = Outcome.returned (some e))
        ∧ ((testStore none none).UploadImage background "key_1" none freshWorld).2
            = freshWorld
        ∧ ((testStore none none).UploadImage background "key_1" none
            freshWorld).2.putObjectCount = freshWorld.putObjectCount) :=
  ⟨rfl, UploadImage_nil_body_fails_without_call (some (fixedClient none none))
    "test_bucket" [] freshWorld (testStore none none) rfl background "key_1"
    freshWorld⟩

/-- C3: for every store with client `c`, every non-empty key and every non-nil
body, `UploadImage` returns, unchanged, the error that the client's `PutObject`
returned for the forwarded call: nil for nil, and the same error `e` for `e`. -/
theorem UploadImage_returns_PutObject_error {σ : Type} (s : Store σ) (c : S3API σ)
    (hc : s.client = some c) (ctx : Context) (key : String) (hkey : key ≠ "")
    (body : Reader) (w : World σ) :
    (s.UploadImage ctx key (some body) w).1
      = Outcome.returned
          (c.PutObject ctx
            { Bucket := some s.bucket, Key := some key, Body := some body,
              Metadata := some [] }
            [s3.OptFn.WithAPIOptions s.apiOpts] w.state).1.2 := by
  obtain ⟨client, bucket, apiOpts⟩ := s
  simp only at hc
  subst hc
  simp [Store.UploadImage, UploadImageWithMetadata_forwards, hkey]

/-- Instance of C3 at the test suite's failing upload: the injected `AnError`
comes back. -/
theorem UploadImage_returns_PutObject_error_witness :
    (testStore none (some AnError)).client = some (fixedClient none (some AnError))
      ∧ "key_1" ≠ ""
      ∧ ((testStore none (some AnError)).UploadImage background "key_1" (some myBody)
            freshWorld).1
          = Outcome.returned
              ((fixedClient none (some AnError)).PutObject background
                { Bucket := some (testStore none (some AnError)).bucket,
                  Key := some "key_1", Body := some myBody, Metadata := some [] }
                [s3.OptFn.WithAPIOptions (testStore none (some AnError)).apiOpts]
                freshWorld.state).1.2 :=
  ⟨rfl, by decide, UploadImage_returns_PutObject_error (testStore none (some AnError))
    (fixedClient none (some AnError)) rfl background "key_1" (by decide) myBody
    freshWorld⟩

/-- C4: for every store that `New (client, bucket)` returned (client `c`), every
non-empty key, every non-nil body and every non-nil metadata map `m`,
`UploadImageWithMetadata` returns after exactly one more call on the client,
whatever error that call yields: a `PutObject` whose input has `Bucket = bucket`,
`Key = key`, `Body = body` and `Metadata = m`. The client's `PutObject` is run on
that input from the current client state; the error it yields is the error
returned and the state it leaves is the client state afterwards. No `HeadBucket`
call is made. -/
theorem UploadImageWithMetadata_makes_one_PutObject {σ : Type} (c : S3API σ)
    (bucket : String) (apiOpts : List APIOption) (w0 : World σ) (s : Store σ)
    (hNew : (New (some c) bucket apiOpts w0).1 = (some s, none))
    (ctx : Context) (key : String) (hkey : key ≠ "") (body : Reader)
    (m : List (String × String)) (w : World σ) :
    (s.UploadImageWithMetadata ctx key (some body) (some m) w).1
        = Outcome.returned
            (c.PutObject ctx
              { Bucket := some bucket, Key := some key, Body := some body,
                Metadata := some m }
              [s3.OptFn.WithAPIOptions apiOpts] w.state).1.2
      ∧ (s.UploadImageWithMetadata ctx key (some body) (some m) w).2.state
          = (c.PutObject ctx
              { Bucket := some bucket, Key := some key, Body := some body,
                Metadata := some m }
              [s3.OptFn.WithAPIOptions apiOpts] w.state).2
      ∧ (s.UploadImageWithMetadata ctx key (some body) (some m) w).2.calls
          = w.calls ++ [Call.PutObject ctx
              { Bucket := some bucket, Key := some key, Body := some body,
                Metadata := some m }
              [s3.OptFn.WithAPIOptions apiOpts]]
      ∧ (s.UploadImageWithMetadata ctx key (some body) (some m) w).2.putObjectCount
          = w.putObjectCount + 1
      ∧ (s.UploadImageWithMetadata ctx key (some body) (some m) w).2.headBucketCount
          = w.headBucketCount := by
  obtain ⟨_, hs⟩ := New_returns_store (some c) bucket apiOpts w0 s hNew
  subst hs
  rw [UploadImageWithMetadata_forwards c bucket apiOpts ctx key hkey body (some m) w]
  refine ⟨rfl, rfl, rfl, ?_, ?_⟩
  · exact countP_isPutObject_append_put _ _ _ _
  · exact countP_isHeadBucket_append_put _ _ _ _

/-- Instance of C4 at the test suite's successful upload, with one metadata
entry. -/
theorem UploadImageWithMetadata_makes_one_PutObject_witness :
    (New (some (fixedClient none none)) "test_bucket" [] freshWorld).1
        = (some (testStore none none), none)
      ∧ "key_1" ≠ ""
      ∧ (((testStore none none).UploadImageWithMetadata background "key_1"
              (some myBody) (some [("owner", "me")]) freshWorld).1
            = Outcome.returned
                ((fixedClient none none).PutObject background
                  { Bucket := some "test_bucket", Key := some "key_1",
                    Body := some myBody, Metadata := some [("owner", "me")] }
                  [s3.OptFn.WithAPIOptions []] freshWorld.state).1.2
        ∧ ((testStore none none).UploadImageWithMetadata background "key_1"
              (some myBody) (some [("owner", "me")]) freshWorld).2.state
            = ((fixedClient none none).PutObject background
                  { Bucket := some "test_bucket", Key := some "key_1",
                    Body := some myBody, Metadata := some [("owner", "me")] }
                  [s3.OptFn.WithAPIOptions []] freshWorld.state).2
        ∧ ((testStore none none).UploadImageWithMetadata background "key_1"
              (some myBody) (some [("owner", "me")]) freshWorld).2.calls
            = freshWorld.calls ++ [Call.PutObject background
                { Bucket := some "test_bucket", Key := some "key_1",
                  Body := some myBody, Metadata := some [("owner", "me")] }
                [s3.OptFn.WithAPIOptions []]]
        ∧ ((testStore none none).UploadImageWithMetadata background "key_1"
              (some myBody) (some [("owner", "me")]) freshWorld).2.putObjectCount
            = freshWorld.putObjectCount + 1
        ∧ ((testStore none none).UploadImageWithMetadata background "key_1"
              (some myBody) (some [("owner", "me")]) freshWorld).2.headBucketCount
            = freshWorld.headBucketCount) :=
  ⟨rfl, by decide, UploadImageWithMetadata_makes_one_PutObject (fixedClient none none)
    "test_bucket" [] freshWorld (testStore none none) rfl background "key_1"
    (by decide) myBody [("owner", "me")] freshWorld⟩

/-- C5: for every client (nil included) and every list of options, `New` with
the empty bucket name returns a nil store together with a non-nil error, and
leaves the world as it was: no call is made on the client. -/
theorem New_empty_bucket_fails {σ : Type} (client : Option (S3API σ))
    (apiOpts : List APIOption) (w : World σ) :
    (∃ e : GoError, (New client "" apiOpts w).1 = (none, some e))
      ∧ (New client "" apiOpts w).2 = w := by
  refine ⟨⟨errors.New "bucket name cannot be empty", ?_⟩, ?_⟩ <;> simp [New]

/-- C6: for every non-empty bucket name, every client and every list of options,
`New` returns a nil error and a store whose `client`, `bucket` and `apiOpts`
fields are the arguments given, and leaves the world as it was: no call is made
on the client. -/
theorem New_nonempty_bucket_builds_store {σ : Type} (client : Option (S3API σ))
    (bucket : String) (hbucket : bucket ≠ "") (apiOpts : List APIOption)
    (w : World σ) :
    (∃ s : Store σ, (New client bucket apiOpts w).1 = (some s, none)
        ∧ s.client = client ∧ s.bucket = bucket ∧ s.apiOpts = apiOpts)
      ∧ (New client bucket apiOpts w).2 = w := by
  refine ⟨⟨{ client := client, bucket := bucket, apiOpts := apiOpts }, ?_, rfl, rfl, rfl⟩,
    ?_⟩ <;> simp [New, hbucket]

/-- Instance of C6 at the test suite's setup, with two options. -/
theorem New_nonempty_bucket_builds_store_witness :
    "test_bucket" ≠ ""
      ∧ ((∃ s : Store Nat,
            (New (some (fixedClient none none)) "test_bucket" [⟨1⟩, ⟨2⟩] freshWorld).1
              = (some s, none)
            ∧ s.client = some (fixedClient none none) ∧ s.bucket = "test_bucket"
            ∧ s.apiOpts = [⟨1⟩, ⟨2⟩])
        ∧ (New (some (fixedClient none none)) "test_bucket" [⟨1⟩, ⟨2⟩] freshWorld).2
            = freshWorld) :=
  ⟨by decide, New_nonempty_bucket_builds_store (some (fixedClient none none))
    "test_bucket" (by decide) [⟨1⟩, ⟨2⟩] freshWorld⟩

/-- C9: for every store (nil client included), context, key and body (the empty
key and the nil body included), `UploadImage` has the same outcome, the same
call log and the same client state at the end as `UploadImageWithMetadata` called
with the empty non-nil map. -/
theorem UploadImage_is_UploadImageWithMetadata_empty_map {σ : Type} (s : Store σ)
    (ctx : Context) (key : String) (body : Option Reader) (w : World σ) :
    (s.UploadImage ctx key body w).1
        = (s.UploadImageWithMetadata ctx key body (some []) w).1
      ∧ (s.UploadImage ctx key body w).2.calls
          = (s.UploadImageWithMetadata ctx key body (some []) w).2.calls
      ∧ (s.UploadImage ctx key body w).2.state
          = (s.UploadImageWithMetadata ctx key body (some []) w).2.state := by
  refine ⟨?_, ?_, ?_⟩ <;> simp only [Store.UploadImage]

/-- C10: the key is checked before the body. For every store and metadata,
`UploadImageWithMetadata` with the empty key and a nil body returns the error
built from `key cannot be empty`; that is the outcome for the empty key with any
non-nil body too, and it is not the error built from `body cannot be nil`. -/
theorem UploadImageWithMetadata_checks_key_before_body {σ : Type} (s : Store σ)
    (ctx : Context) (body : Reader) (metadata : StringMap) (w : World σ) :
    (s.UploadImageWithMetadata ctx "" none metadata w).1
        = Outcome.returned (some (errors.New "key cannot be empty"))
      ∧ (errors.New "key cannot be empty").Error = "key cannot be empty"
      ∧ (s.UploadImageWithMetadata ctx "" none metadata w).1
          = (s.UploadImageWithMetadata ctx "" (some body) metadata w).1
      ∧ (s.UploadImageWithMetadata ctx "" none metadata w).1
          ≠ Outcome.returned (some (errors.New "body cannot be nil")) := by
  refine ⟨?_, rfl, ?_, ?_⟩
  · simp [Store.UploadImageWithMetadata]
  · simp [Store.UploadImageWithMetadata]
  · simp [Store.UploadImageWithMetadata, errors.New]

end Moneta
